import Mathlib

/-!
# Leaping Sheep: the simulation core of `Source.cpp`

A shallow embedding of the gameplay part of `main` in `src/Source.cpp`
(lines 58-124 and the loop body, lines 152-212) together with the properties
of the specification that are settled against it.

Modelling conventions.

* `double` and `float` values are rationals (`ℚ`).  Every value the loop
  stores in the player, in the obstacle and in `interval` is an integer of
  small magnitude (`interval` stays below `2^20 + 6`), on which `double` and
  `float` arithmetic is exact.  `gameTime` is not: `gameTime += dt` rounds to
  `double` and then to `float` in every iteration, and `clockStep` rounds in
  the same way (round to nearest, ties to even).
* `(int)d` is truncation toward zero, `castInt`.
* `int` is `Int`; the rectangle test is stated without overflow.
* `rand()` is a stream `rng : Nat → Nat` of non-negative results, read at the
  index `randCalls` kept in the state; each call advances the index by one.
* One iteration of the `for` loop is `tick`; the keyboard sample
  `kstate[SDL_SCANCODE_SPACE]` is its Boolean input.  Rendering, event polling
  and the `SDL_QUIT` flag do not touch the simulated variables and are left
  out.
* `obstacle obstacle;` leaves `obstacle.position` uninitialised, so the initial
  state takes that position as a parameter.
-/

namespace SDLGame

/-! ## Data model -/

/-- Source line 58: `using pos_t = std::array<double, 2>`; index 0 is `x`,
index 1 is `y`. -/
structure pos_t where
  x : ℚ
  y : ℚ
deriving DecidableEq

/-- Source lines 60-62: `operator +` on `pos_t`. -/
def pos_t.add (a b : pos_t) : pos_t := ⟨a.x + b.x, a.y + b.y⟩

/-- Source lines 63-65: `operator -` on `pos_t`. -/
def pos_t.sub (a b : pos_t) : pos_t := ⟨a.x - b.x, a.y - b.y⟩

/-- Source lines 66-68: componentwise `operator *` on `pos_t`. -/
def pos_t.mul (a b : pos_t) : pos_t := ⟨a.x * b.x, a.y * b.y⟩

/-- Source lines 69-71: `operator *` of a `pos_t` by a scalar. -/
def pos_t.smul (a : pos_t) (b : ℚ) : pos_t := ⟨a.x * b, a.y * b⟩

/-- Source lines 73-78: `class player`. -/
structure player where
  position : pos_t
  velocity : pos_t
  dead : Bool
deriving DecidableEq

/-- Source lines 80-84: `class obstacle`. -/
structure obstacle where
  position : pos_t
  velocity : pos_t
deriving DecidableEq

/-- The four `int` fields of `SDL_Rect`. -/
structure SDL_Rect where
  x : Int
  y : Int
  w : Int
  h : Int
deriving DecidableEq

/-- Source lines 86-124: `checkCollision`, four rejecting comparisons in the
order of the source. -/
def checkCollision (a b : SDL_Rect) : Bool :=
  let leftA := a.x
  let rightA := a.x + a.w
  let topA := a.y
  let bottomA := a.y + a.h
  let leftB := b.x
  let rightB := b.x + b.w
  let topB := b.y
  let bottomB := b.y + b.h
  if bottomA ≤ topB then false
  else if topA ≥ bottomB then false
  else if rightA ≤ leftB then false
  else if leftA ≥ rightB then false
  else true

/-! ## Binary floating point

`gameTime` is a `float` and `dt` a `double`, and `gameTime += dt` rounds twice
in every iteration; the clock below rounds in the same places.  The exponent
range is not bounded: the clock stays between `dt` and `2^20`, far from
overflow and from the subnormal numbers. -/

/-- The power `2^e` of two, for an integer exponent. -/
def pow2 (e : Int) : ℚ :=
  if 0 ≤ e then ((2 ^ e.toNat : Nat) : ℚ) else 1 / ((2 ^ (-e).toNat : Nat) : ℚ)

/-- Binary logarithm of a natural number by repeated halving, at most `fuel`
times. -/
def log2Fuel : Nat → Nat → Nat
  | 0, _ => 0
  | fuel + 1, n => if 2 ≤ n then log2Fuel fuel (n / 2) + 1 else 0

/-- For `x > 0`, the exponent `e` with `2^e <= x < 2^(e+1)`. -/
def ilog2 (x : ℚ) : Int :=
  let c : Int := (log2Fuel x.num.natAbs x.num.natAbs : Int) - (log2Fuel x.den x.den : Int)
  if pow2 c ≤ x then c else c - 1

/-- Rounding to the nearest integer, ties to the even one. -/
def roundHalfEven (m : ℚ) : Int :=
  if m - (⌊m⌋ : ℚ) < 1 / 2 then ⌊m⌋
  else if 1 / 2 < m - (⌊m⌋ : ℚ) then ⌊m⌋ + 1
  else if ⌊m⌋ % 2 = 0 then ⌊m⌋ else ⌊m⌋ + 1

/-- Rounding of a positive rational to `p` significant bits. -/
def roundPos (p : Nat) (x : ℚ) : ℚ :=
  (roundHalfEven (x / pow2 (ilog2 x - ((p : Int) - 1))) : ℚ) * pow2 (ilog2 x - ((p : Int) - 1))

/-- Rounding to the nearest binary floating-point number with `p` significant
bits, ties to even: `p = 24` is a `float`, `p = 53` a `double`. -/
def roundTo (p : Nat) (x : ℚ) : ℚ :=
  if x = 0 then 0 else if x < 0 then -roundPos p (-x) else roundPos p x

/-- Source line 150: `double dt = 1 / 30.0`, the `double` nearest to 1/30. -/
def dt : ℚ := roundTo 53 (1 / 30)

/-- The value of `gameTime += dt` for a `float gameTime` and a `double dt`:
`(float)((double)gameTime + dt)`, the sum rounded to a `double` and the result
converted to `float`. -/
def clockStep (g : ℚ) : ℚ := roundTo 24 (roundTo 53 (g + dt))

/-! ## The state of the loop -/

/-- The C conversion `(int)d` of a `double`: truncation toward zero. -/
def castInt (d : ℚ) : Int := Int.tdiv d.num d.den

/-- The variables of `main` that the loop simulates (lines 141-150), and the
number of `rand()` calls made so far. -/
structure State where
  player : player
  obstacle : obstacle
  gameTime : ℚ
  interval : ℚ
  randCalls : Nat
deriving DecidableEq


/-- Source lines 141-147: the state before the first iteration; `obs` is the
uninitialised `obstacle.position`. -/
def init (obs : pos_t) : State :=
  { player := { position := ⟨50, 350⟩, velocity := ⟨0, 0⟩, dead := false }
    obstacle := { position := obs, velocity := ⟨0, 0⟩ }
    gameTime := 0
    interval := 1
    randCalls := 0 }

/-! ## The loop body, statement by statement -/

/-- Source line 153: `if (!player.dead) gameTime += dt;`. -/
def advanceClock (s : State) : State :=
  if !s.player.dead then { s with gameTime := clockStep s.gameTime } else s

/-- The body shared by the four spawn blocks (lines 159-161, 166-168, 173-175,
180-182): `interval += rand() % m1 + c1`, the obstacle is put at `(800, 350)`
and gets the velocity `(-(double)(rand() % m2 + c2), 0)`. -/
def spawn (rng : Nat → Nat) (m1 c1 m2 c2 : Nat) (s : State) : State :=
  { s with
    interval := s.interval + ((rng s.randCalls % m1 + c1 : Nat) : ℚ)
    obstacle :=
      { position := ⟨800, 350⟩
        velocity := ⟨-((rng (s.randCalls + 1) % m2 + c2 : Nat) : ℚ), 0⟩ }
    randCalls := s.randCalls + 2 }

/-- Source line 158: the condition of the first spawn block. -/
def guard1 (s : State) : Bool :=
  decide (s.gameTime > s.interval) && decide (s.gameTime ≤ 25) && !s.player.dead

/-- Source line 164: the condition of the second spawn block. -/
def guard2 (s : State) : Bool :=
  decide (s.gameTime > s.interval) && decide (s.gameTime > 25) && decide (s.gameTime ≤ 50)
    && !s.player.dead

/-- Source line 171: the condition of the third spawn block. -/
def guard3 (s : State) : Bool :=
  decide (s.gameTime > s.interval) && decide (s.gameTime > 50) && decide (s.gameTime ≤ 75)
    && !s.player.dead

/-- Source line 178: the condition of the fourth spawn block. -/
def guard4 (s : State) : Bool :=
  decide (s.gameTime > s.interval) && decide (s.gameTime > 75) && !s.player.dead

/-- Source lines 158-162: the block of the band `gameTime <= 25`. -/
def spawnBlock1 (rng : Nat → Nat) (s : State) : State :=
  if guard1 s then spawn rng 3 3 6 10 s else s

/-- Source lines 164-169: the block of the band `25 < gameTime <= 50`. -/
def spawnBlock2 (rng : Nat → Nat) (s : State) : State :=
  if guard2 s then spawn rng 2 2 6 14 s else s

/-- Source lines 171-176: the block of the band `50 < gameTime <= 75`. -/
def spawnBlock3 (rng : Nat → Nat) (s : State) : State :=
  if guard3 s then spawn rng 4 2 4 20 s else s

/-- Source lines 178-183: the block of the band `gameTime > 75`. -/
def spawnBlock4 (rng : Nat → Nat) (s : State) : State :=
  if guard4 s then spawn rng 2 3 4 22 s else s

/-- Source lines 158-183: the four blocks run one after the other, each on
the state the previous one left. -/
def spawnScheduler (rng : Nat → Nat) (s : State) : State :=
  spawnBlock4 rng (spawnBlock3 rng (spawnBlock2 rng (spawnBlock1 rng s)))

/-- Source line 186:
`if (!player.dead) obstacle.position = obstacle.position + obstacle.velocity;`. -/
def advanceObstacle (s : State) : State :=
  if !s.player.dead then
    { s with obstacle :=
        { s.obstacle with position := s.obstacle.position.add s.obstacle.velocity } }
  else s

/-- The rectangle `{ (int)p[0], (int)p[1], 128, 128 }` built at line 188. -/
def box (p : pos_t) : SDL_Rect := ⟨castInt p.x, castInt p.y, 128, 128⟩

/-- Source lines 188-191: the player dies when the two boxes collide. -/
def deathTransition (s : State) : State :=
  if checkCollision (box s.player.position) (box s.obstacle.position) && !s.player.dead then
    { s with player := { s.player with dead := true } }
  else s

/-- Source lines 200-203: a jump starts when the key is held, the player is on
or below the ground line and alive. -/
def handleInput (space : Bool) (s : State) : State :=
  if space && decide (s.player.position.y ≥ 350) && !s.player.dead then
    { s with player :=
        { s.player with
          position := ⟨s.player.position.x, s.player.position.y - 1⟩
          velocity := ⟨s.player.velocity.x, -22⟩ } }
  else s

/-- Source lines 206-212 on the player alone: while above the ground line the
position takes the velocity, the velocity takes gravity `(0, 1)`, and a
position past the ground line is put back on it. -/
def jumpArcPlayer (p : player) : player :=
  if p.position.y < 350 then
    let position := p.position.add p.velocity
    let velocity := p.velocity.add ⟨0, 1⟩
    if position.y > 350 then
      { p with position := ⟨position.x, 350⟩, velocity := velocity }
    else
      { p with position := position, velocity := velocity }
  else p

/-- Source lines 206-212 on the whole state. -/
def jumpArc (s : State) : State := { s with player := jumpArcPlayer s.player }

/-- Source lines 153-186: the state just before the collision test of line
188. -/
def beforeCollision (rng : Nat → Nat) (s : State) : State :=
  advanceObstacle (spawnScheduler rng (advanceClock s))

/-- Source lines 153-191: the part of an iteration that runs before the
keyboard is read. -/
def preInput (rng : Nat → Nat) (s : State) : State :=
  deathTransition (beforeCollision rng s)

/-- One iteration of the loop of `main` (lines 152-212), `space` being
`kstate[SDL_SCANCODE_SPACE]`. -/
def tick (rng : Nat → Nat) (space : Bool) (s : State) : State :=
  jumpArc (handleInput space (preInput rng s))

/-- Successive iterations, one per keyboard sample. -/
def run (rng : Nat → Nat) (s : State) (keys : List Bool) : State :=
  keys.foldl (fun st k => tick rng k st) s

/-- The states the loop can be in at the end of an iteration (or before the
first one), for some initial obstacle position, random stream and keyboard
samples. -/
def Reachable (s : State) : Prop :=
  ∃ (obs : pos_t) (rng : Nat → Nat) (keys : List Bool), s = run rng (init obs) keys

/-! ## Vocabulary of the properties -/

/-- The open interior of a rectangle, as a set of points of the real plane. -/
def interior (r : SDL_Rect) (px py : ℝ) : Prop :=
  (r.x : ℝ) < px ∧ px < (r.x : ℝ) + (r.w : ℝ) ∧ (r.y : ℝ) < py ∧ py < (r.y : ℝ) + (r.h : ℝ)

/-- The number of spawn blocks whose body runs when the scheduler is entered
in state `s`: each condition is read in the state its predecessors left. -/
def blocksFired (rng : Nat → Nat) (s : State) : Nat :=
  let s1 := spawnBlock1 rng s
  let s2 := spawnBlock2 rng s1
  let s3 := spawnBlock3 rng s2
  (if guard1 s then 1 else 0) + (if guard2 s1 then 1 else 0)
    + (if guard3 s2 then 1 else 0) + (if guard4 s3 then 1 else 0)

/-- A random stream whose every `rand()` result is 0. -/
def rngZero : Nat → Nat := fun _ => 0

/-- The initial state with the obstacle parked at the spawn point. -/
def init800 : State := init ⟨800, 350⟩

/-- A scheduler state with `gameTime = 10` and `interval = 3`. -/
def sched10 : State := { init800 with gameTime := 10, interval := 3 }

/-- Keyboard samples of a run of 93 iterations in which the jump key is held
in iteration 90 only. -/
def keysLateJump : List Bool := List.replicate 89 false ++ [true, false, false, false]

/-- The state after 30 iterations without input from `init800` with the
stream `rngZero`: the rounded clock has just passed 1, the first spawn has
happened (`interval` 1 + 3, speed 10) and the obstacle has made its first
step. -/
def checkpoint30 : State :=
  { player := { position := ⟨50, 350⟩, velocity := ⟨0, 0⟩, dead := false }
    obstacle := { position := ⟨790, 350⟩, velocity := ⟨-10, 0⟩ }
    gameTime := 8388611 / 8388608
    interval := 4
    randCalls := 2 }

/-- The state after 60 iterations without input. -/
def checkpoint60 : State :=
  { checkpoint30 with
    obstacle := { position := ⟨490, 350⟩, velocity := ⟨-10, 0⟩ }
    gameTime := 16777211 / 8388608 }

/-- The state after 89 iterations without input. -/
def checkpoint89 : State :=
  { checkpoint30 with
    obstacle := { position := ⟨200, 350⟩, velocity := ⟨-10, 0⟩ }
    gameTime := 1555387 / 524288 }

/-- The state after 91 iterations without input: the obstacle is at
`x = 180`, one step short of the player. -/
def beforeImpact : State :=
  { checkpoint30 with
    obstacle := { position := ⟨180, 350⟩, velocity := ⟨-10, 0⟩ }
    gameTime := 3180679 / 1048576 }

/-- The state after the 93 iterations of `keysLateJump`: the obstacle reaches
the player in iteration 92, two iterations after the jump started, and the
dead player has moved once more in iteration 93. -/
def deadAirborne : State :=
  { player := { position := ⟨50, 267⟩, velocity := ⟨0, -18⟩, dead := true }
    obstacle := { position := ⟨170, 350⟩, velocity := ⟨-10, 0⟩ }
    gameTime := 6431263 / 2097152
    interval := 4
    randCalls := 2 }

/-! ### A run that survives until `gameTime > 27`

With the stream `rngZero` the thresholds are 1, 4, 7, ..., 25, 27 and every
obstacle has to be jumped.  The jump key is held in iterations 81, 172, 262,
351, 441, 531, 621, 711 and 788 only.  The states below are the run at
iterations 50, 100, ..., 750, then 751, 800 and 810. -/

/-- The player at the end of an iteration that started a jump from the ground
at `(50, 350)`: one step of the arc has already been taken. -/
def airbornePlayer : player :=
  { position := ⟨50, 327⟩, velocity := ⟨0, -21⟩, dead := false }

/-- The player at the start of the run. -/
def groundedPlayer : player :=
  { position := ⟨50, 350⟩, velocity := ⟨0, 0⟩, dead := false }

/-- The player back on the ground line after the jump: the velocity keeps the
value it had when the position was capped. -/
def landedPlayer : player :=
  { position := ⟨50, 350⟩, velocity := ⟨0, 24⟩, dead := false }

/-- Two players with the same position and velocity. -/
def kinEq (p q : player) : Prop := p.position = q.position ∧ p.velocity = q.velocity

/-! ## The collision detector -/

theorem checkCollision_eq_true_iff (a b : SDL_Rect) :
    checkCollision a b = true ↔
      (a.x < b.x + b.w ∧ b.x < a.x + a.w ∧ a.y < b.y + b.h ∧ b.y < a.y + a.h) := by
  unfold checkCollision
  simp only
  split_ifs <;> simp <;> omega

theorem exists_between_of_int {l1 r1 l2 r2 : Int} (h1 : l1 < r1) (h2 : l2 < r2)
    (h12 : l1 < r2) (h21 : l2 < r1) :
    ∃ p : ℝ, (l1 : ℝ) < p ∧ p < (r1 : ℝ) ∧ (l2 : ℝ) < p ∧ p < (r2 : ℝ) := by
  have c1 : (l1 : ℝ) + 1 ≤ (r1 : ℝ) := by exact_mod_cast h1
  have c2 : (l2 : ℝ) + 1 ≤ (r2 : ℝ) := by exact_mod_cast h2
  have c3 : (l1 : ℝ) + 1 ≤ (r2 : ℝ) := by exact_mod_cast h12
  have c4 : (l2 : ℝ) + 1 ≤ (r1 : ℝ) := by exact_mod_cast h21
  rcases le_total l1 l2 with h | h
  · have c5 : (l1 : ℝ) ≤ (l2 : ℝ) := by exact_mod_cast h
    exact ⟨(l2 : ℝ) + 1 / 2, by linarith, by linarith, by linarith, by linarith⟩
  · have c5 : (l2 : ℝ) ≤ (l1 : ℝ) := by exact_mod_cast h
    exact ⟨(l1 : ℝ) + 1 / 2, by linarith, by linarith, by linarith, by linarith⟩

/-- C1: for rectangles of positive width and height, `checkCollision a b` is
true exactly when the four strict inequalities hold, which is exactly when the
open interiors of `a` and `b` share a point; rectangles that touch along an
edge do not collide. -/
theorem checkCollision_iff_interiors_overlap (a b : SDL_Rect)
    (haw : 0 < a.w) (hah : 0 < a.h) (hbw : 0 < b.w) (hbh : 0 < b.h) :
    (checkCollision a b = true ↔
      (a.x < b.x + b.w ∧ b.x < a.x + a.w ∧ a.y < b.y + b.h ∧ b.y < a.y + a.h)) ∧
    (checkCollision a b = true ↔ ∃ px py : ℝ, interior a px py ∧ interior b px py) ∧
    ((a.x + a.w = b.x ∨ a.y + a.h = b.y ∨ b.x + b.w = a.x ∨ b.y + b.h = a.y) →
      checkCollision a b = false) := by
  refine ⟨checkCollision_eq_true_iff a b, ?_, ?_⟩
  · rw [checkCollision_eq_true_iff]
    constructor
    · rintro ⟨h1, h2, h3, h4⟩
      obtain ⟨px, x1, x2, x3, x4⟩ :=
        @exists_between_of_int a.x (a.x + a.w) b.x (b.x + b.w) (by omega) (by omega) h1 h2
      obtain ⟨py, y1, y2, y3, y4⟩ :=
        @exists_between_of_int a.y (a.y + a.h) b.y (b.y + b.h) (by omega) (by omega) h3 h4
      push_cast at x2 x4 y2 y4
      exact ⟨px, py, ⟨x1, x2, y1, y2⟩, ⟨x3, x4, y3, y4⟩⟩
    · rintro ⟨px, py, ⟨x1, x2, y1, y2⟩, ⟨x3, x4, y3, y4⟩⟩
      have e1 : (a.x : ℝ) < (b.x : ℝ) + (b.w : ℝ) := by linarith
      have e2 : (b.x : ℝ) < (a.x : ℝ) + (a.w : ℝ) := by linarith
      have e3 : (a.y : ℝ) < (b.y : ℝ) + (b.h : ℝ) := by linarith
      have e4 : (b.y : ℝ) < (a.y : ℝ) + (a.h : ℝ) := by linarith
      exact ⟨by exact_mod_cast e1, by exact_mod_cast e2, by exact_mod_cast e3,
        by exact_mod_cast e4⟩
  · intro h
    rw [← Bool.not_eq_true, checkCollision_eq_true_iff]
    omega

theorem checkCollision_iff_interiors_overlap_witness :
    (checkCollision ⟨50, 350, 128, 128⟩ ⟨170, 350, 128, 128⟩ = true ↔
      ((50 : Int) < 170 + 128 ∧ (170 : Int) < 50 + 128 ∧ (350 : Int) < 350 + 128
        ∧ (350 : Int) < 350 + 128)) ∧
    (checkCollision ⟨50, 350, 128, 128⟩ ⟨170, 350, 128, 128⟩ = true ↔
      ∃ px py : ℝ, interior ⟨50, 350, 128, 128⟩ px py ∧ interior ⟨170, 350, 128, 128⟩ px py) ∧
    (((50 : Int) + 128 = 170 ∨ (350 : Int) + 128 = 350 ∨ (170 : Int) + 128 = 50
        ∨ (350 : Int) + 128 = 350) →
      checkCollision ⟨50, 350, 128, 128⟩ ⟨170, 350, 128, 128⟩ = false) :=
  checkCollision_iff_interiors_overlap ⟨50, 350, 128, 128⟩ ⟨170, 350, 128, 128⟩
    (by decide) (by decide) (by decide) (by decide)

/-! ## The spawn scheduler -/

theorem guard1_iff (s : State) :
    guard1 s = true ↔ s.gameTime > s.interval ∧ s.gameTime ≤ 25 ∧ s.player.dead = false := by
  simp [guard1, and_assoc]

theorem guard2_iff (s : State) :
    guard2 s = true ↔
      s.gameTime > s.interval ∧ s.gameTime > 25 ∧ s.gameTime ≤ 50 ∧ s.player.dead = false := by
  simp [guard2, and_assoc]

theorem guard3_iff (s : State) :
    guard3 s = true ↔
      s.gameTime > s.interval ∧ s.gameTime > 50 ∧ s.gameTime ≤ 75 ∧ s.player.dead = false := by
  simp [guard3, and_assoc]

theorem guard4_iff (s : State) :
    guard4 s = true ↔ s.gameTime > s.interval ∧ s.gameTime > 75 ∧ s.player.dead = false := by
  simp [guard4, and_assoc]

theorem spawn_gameTime (rng : Nat → Nat) (m1 c1 m2 c2 : Nat) (s : State) :
    (spawn rng m1 c1 m2 c2 s).gameTime = s.gameTime := rfl

theorem spawn_player (rng : Nat → Nat) (m1 c1 m2 c2 : Nat) (s : State) :
    (spawn rng m1 c1 m2 c2 s).player = s.player := rfl

theorem guard2_spawn_of_le (rng : Nat → Nat) (m1 c1 m2 c2 : Nat) (s : State)
    (h : s.gameTime ≤ 25) : guard2 (spawn rng m1 c1 m2 c2 s) = false := by
  rw [← Bool.not_eq_true, guard2_iff, spawn_gameTime]
  intro hc
  linarith [hc.2.1]

theorem guard3_spawn_of_le (rng : Nat → Nat) (m1 c1 m2 c2 : Nat) (s : State)
    (h : s.gameTime ≤ 50) : guard3 (spawn rng m1 c1 m2 c2 s) = false := by
  rw [← Bool.not_eq_true, guard3_iff, spawn_gameTime]
  intro hc
  linarith [hc.2.1]

theorem guard4_spawn_of_le (rng : Nat → Nat) (m1 c1 m2 c2 : Nat) (s : State)
    (h : s.gameTime ≤ 75) : guard4 (spawn rng m1 c1 m2 c2 s) = false := by
  rw [← Bool.not_eq_true, guard4_iff, spawn_gameTime]
  intro hc
  linarith [hc.2.1]

theorem spawnBlock1_false (rng : Nat → Nat) (s : State) (h : guard1 s = false) :
    spawnBlock1 rng s = s := by simp [spawnBlock1, h]

theorem spawnBlock2_false (rng : Nat → Nat) (s : State) (h : guard2 s = false) :
    spawnBlock2 rng s = s := by simp [spawnBlock2, h]

theorem spawnBlock3_false (rng : Nat → Nat) (s : State) (h : guard3 s = false) :
    spawnBlock3 rng s = s := by simp [spawnBlock3, h]

theorem spawnBlock4_false (rng : Nat → Nat) (s : State) (h : guard4 s = false) :
    spawnBlock4 rng s = s := by simp [spawnBlock4, h]

theorem spawnBlock1_true (rng : Nat → Nat) (s : State) (h : guard1 s = true) :
    spawnBlock1 rng s = spawn rng 3 3 6 10 s := by simp [spawnBlock1, h]

theorem spawnBlock2_true (rng : Nat → Nat) (s : State) (h : guard2 s = true) :
    spawnBlock2 rng s = spawn rng 2 2 6 14 s := by simp [spawnBlock2, h]

theorem spawnBlock3_true (rng : Nat → Nat) (s : State) (h : guard3 s = true) :
    spawnBlock3 rng s = spawn rng 4 2 4 20 s := by simp [spawnBlock3, h]

theorem spawnBlock4_true (rng : Nat → Nat) (s : State) (h : guard4 s = true) :
    spawnBlock4 rng s = spawn rng 2 3 4 22 s := by simp [spawnBlock4, h]

/-- The states the four blocks leave, and the conditions they read, when the
scheduler is entered with `gameTime > interval` and the player alive: the
block of the band of `gameTime` runs and no other does. -/
theorem scheduler_trace_fire (rng : Nat → Nat) (s : State)
    (halive : s.player.dead = false) (hgt : s.gameTime > s.interval) :
    (s.gameTime ≤ 25 ∧ guard1 s = true ∧
      spawnBlock1 rng s = spawn rng 3 3 6 10 s ∧
      guard2 (spawnBlock1 rng s) = false ∧
      spawnBlock2 rng (spawnBlock1 rng s) = spawn rng 3 3 6 10 s ∧
      guard3 (spawnBlock2 rng (spawnBlock1 rng s)) = false ∧
      spawnBlock3 rng (spawnBlock2 rng (spawnBlock1 rng s)) = spawn rng 3 3 6 10 s ∧
      guard4 (spawnBlock3 rng (spawnBlock2 rng (spawnBlock1 rng s))) = false ∧
      spawnScheduler rng s = spawn rng 3 3 6 10 s) ∨
    (25 < s.gameTime ∧ s.gameTime ≤ 50 ∧ guard1 s = false ∧
      spawnBlock1 rng s = s ∧
      guard2 (spawnBlock1 rng s) = true ∧
      spawnBlock2 rng (spawnBlock1 rng s) = spawn rng 2 2 6 14 s ∧
      guard3 (spawnBlock2 rng (spawnBlock1 rng s)) = false ∧
      spawnBlock3 rng (spawnBlock2 rng (spawnBlock1 rng s)) = spawn rng 2 2 6 14 s ∧
      guard4 (spawnBlock3 rng (spawnBlock2 rng (spawnBlock1 rng s))) = false ∧
      spawnScheduler rng s = spawn rng 2 2 6 14 s) ∨
    (50 < s.gameTime ∧ s.gameTime ≤ 75 ∧ guard1 s = false ∧
      spawnBlock1 rng s = s ∧
      guard2 (spawnBlock1 rng s) = false ∧
      spawnBlock2 rng (spawnBlock1 rng s) = s ∧
      guard3 (spawnBlock2 rng (spawnBlock1 rng s)) = true ∧
      spawnBlock3 rng (spawnBlock2 rng (spawnBlock1 rng s)) = spawn rng 4 2 4 20 s ∧
      guard4 (spawnBlock3 rng (spawnBlock2 rng (spawnBlock1 rng s))) = false ∧
      spawnScheduler rng s = spawn rng 4 2 4 20 s) ∨
    (75 < s.gameTime ∧ guard1 s = false ∧
      spawnBlock1 rng s = s ∧
      guard2 (spawnBlock1 rng s) = false ∧
      spawnBlock2 rng (spawnBlock1 rng s) = s ∧
      guard3 (spawnBlock2 rng (spawnBlock1 rng s)) = false ∧
      spawnBlock3 rng (spawnBlock2 rng (spawnBlock1 rng s)) = s ∧
      guard4 (spawnBlock3 rng (spawnBlock2 rng (spawnBlock1 rng s))) = true ∧
      spawnScheduler rng s = spawn rng 2 3 4 22 s) := by
  by_cases h25 : s.gameTime ≤ 25
  · left
    have g1 : guard1 s = true := (guard1_iff s).2 ⟨hgt, h25, halive⟩
    have b1 : spawnBlock1 rng s = spawn rng 3 3 6 10 s := by simp [spawnBlock1, g1]
    have g2 : guard2 (spawnBlock1 rng s) = false := by
      rw [b1]; exact guard2_spawn_of_le rng 3 3 6 10 s h25
    have b2 : spawnBlock2 rng (spawnBlock1 rng s) = spawn rng 3 3 6 10 s := by
      rw [spawnBlock2_false rng _ g2, b1]
    have g3 : guard3 (spawnBlock2 rng (spawnBlock1 rng s)) = false := by
      rw [b2]; exact guard3_spawn_of_le rng 3 3 6 10 s (by linarith)
    have b3 : spawnBlock3 rng (spawnBlock2 rng (spawnBlock1 rng s)) = spawn rng 3 3 6 10 s := by
      rw [spawnBlock3_false rng _ g3, b2]
    have g4 : guard4 (spawnBlock3 rng (spawnBlock2 rng (spawnBlock1 rng s))) = false := by
      rw [b3]; exact guard4_spawn_of_le rng 3 3 6 10 s (by linarith)
    refine ⟨h25, g1, b1, g2, b2, g3, b3, g4, ?_⟩
    show spawnBlock4 rng (spawnBlock3 rng (spawnBlock2 rng (spawnBlock1 rng s))) = _
    rw [spawnBlock4_false rng _ g4, b3]
  · right
    have h25 : 25 < s.gameTime := not_le.mp h25
    have g1 : guard1 s = false := by
      rw [← Bool.not_eq_true, guard1_iff]; intro hc; linarith [hc.2.1]
    have b1 : spawnBlock1 rng s = s := by simp [spawnBlock1, g1]
    by_cases h50 : s.gameTime ≤ 50
    · left
      have g2 : guard2 (spawnBlock1 rng s) = true := by
        rw [b1]; exact (guard2_iff s).2 ⟨hgt, h25, h50, halive⟩
      have b2 : spawnBlock2 rng (spawnBlock1 rng s) = spawn rng 2 2 6 14 s := by
        rw [spawnBlock2_true rng _ g2, b1]
      have g3 : guard3 (spawnBlock2 rng (spawnBlock1 rng s)) = false := by
        rw [b2]; exact guard3_spawn_of_le rng 2 2 6 14 s h50
      have b3 : spawnBlock3 rng (spawnBlock2 rng (spawnBlock1 rng s)) = spawn rng 2 2 6 14 s := by
        rw [spawnBlock3_false rng _ g3, b2]
      have g4 : guard4 (spawnBlock3 rng (spawnBlock2 rng (spawnBlock1 rng s))) = false := by
        rw [b3]; exact guard4_spawn_of_le rng 2 2 6 14 s (by linarith)
      refine ⟨h25, h50, g1, b1, g2, b2, g3, b3, g4, ?_⟩
      show spawnBlock4 rng (spawnBlock3 rng (spawnBlock2 rng (spawnBlock1 rng s))) = _
      rw [spawnBlock4_false rng _ g4, b3]
    · right
      have h50 : 50 < s.gameTime := not_le.mp h50
      have g2 : guard2 (spawnBlock1 rng s) = false := by
        rw [b1, ← Bool.not_eq_true, guard2_iff]; intro hc; linarith [hc.2.2.1]
      have b2 : spawnBlock2 rng (spawnBlock1 rng s) = s := by
        rw [spawnBlock2_false rng _ g2, b1]
      by_cases h75 : s.gameTime ≤ 75
      · left
        have g3 : guard3 (spawnBlock2 rng (spawnBlock1 rng s)) = true := by
          rw [b2]; exact (guard3_iff s).2 ⟨hgt, h50, h75, halive⟩
        have b3 : spawnBlock3 rng (spawnBlock2 rng (spawnBlock1 rng s))
            = spawn rng 4 2 4 20 s := by
          rw [spawnBlock3_true rng _ g3, b2]
        have g4 : guard4 (spawnBlock3 rng (spawnBlock2 rng (spawnBlock1 rng s))) = false := by
          rw [b3]; exact guard4_spawn_of_le rng 4 2 4 20 s h75
        refine ⟨h50, h75, g1, b1, g2, b2, g3, b3, g4, ?_⟩
        show spawnBlock4 rng (spawnBlock3 rng (spawnBlock2 rng (spawnBlock1 rng s))) = _
        rw [spawnBlock4_false rng _ g4, b3]
      · right
        have h75 : 75 < s.gameTime := not_le.mp h75
        have g3 : guard3 (spawnBlock2 rng (spawnBlock1 rng s)) = false := by
          rw [b2, ← Bool.not_eq_true, guard3_iff]; intro hc; linarith [hc.2.2.1]
        have b3 : spawnBlock3 rng (spawnBlock2 rng (spawnBlock1 rng s)) = s := by
          rw [spawnBlock3_false rng _ g3, b2]
        have g4 : guard4 (spawnBlock3 rng (spawnBlock2 rng (spawnBlock1 rng s))) = true := by
          rw [b3]; exact (guard4_iff s).2 ⟨hgt, h75, halive⟩
        refine ⟨h75, g1, b1, g2, b2, g3, b3, g4, ?_⟩
        show spawnBlock4 rng (spawnBlock3 rng (spawnBlock2 rng (spawnBlock1 rng s))) = _
        rw [spawnBlock4_true rng _ g4, b3]

/-- When the scheduler is entered with the player dead or with
`gameTime <= interval`, every condition is false and the state is unchanged. -/
theorem scheduler_trace_idle (rng : Nat → Nat) (s : State)
    (h : ¬(s.player.dead = false ∧ s.gameTime > s.interval)) :
    guard1 s = false ∧ spawnBlock1 rng s = s ∧
    guard2 (spawnBlock1 rng s) = false ∧ spawnBlock2 rng (spawnBlock1 rng s) = s ∧
    guard3 (spawnBlock2 rng (spawnBlock1 rng s)) = false ∧
    spawnBlock3 rng (spawnBlock2 rng (spawnBlock1 rng s)) = s ∧
    guard4 (spawnBlock3 rng (spawnBlock2 rng (spawnBlock1 rng s))) = false ∧
    spawnScheduler rng s = s := by
  have g1 : guard1 s = false := by
    rw [← Bool.not_eq_true, guard1_iff]; intro hc; exact h ⟨hc.2.2, hc.1⟩
  have g2 : guard2 s = false := by
    rw [← Bool.not_eq_true, guard2_iff]; intro hc; exact h ⟨hc.2.2.2, hc.1⟩
  have g3 : guard3 s = false := by
    rw [← Bool.not_eq_true, guard3_iff]; intro hc; exact h ⟨hc.2.2.2, hc.1⟩
  have g4 : guard4 s = false := by
    rw [← Bool.not_eq_true, guard4_iff]; intro hc; exact h ⟨hc.2.2, hc.1⟩
  have b1 : spawnBlock1 rng s = s := by simp [spawnBlock1, g1]
  have b2 : spawnBlock2 rng (spawnBlock1 rng s) = s := by simp [spawnBlock2, b1, g2]
  have b3 : spawnBlock3 rng (spawnBlock2 rng (spawnBlock1 rng s)) = s := by
    simp [spawnBlock3, b2, g3]
  refine ⟨g1, b1, by rw [b1]; exact g2, b2, by rw [b2]; exact g3, b3, by rw [b3]; exact g4, ?_⟩
  show spawnBlock4 rng (spawnBlock3 rng (spawnBlock2 rng (spawnBlock1 rng s))) = _
  rw [b3, spawnBlock4_false rng _ g4]

/-- C2: when the scheduler is entered with the player alive and
`gameTime > interval`, then whatever `rand()` returns it adds to `interval` an
integer of the band of `gameTime` ([3,5], [2,3], [2,5], [3,4]), puts the
obstacle at `(800, 350)` and gives it the velocity `(-sp, 0)` with `sp` an
integer of the speed range of that band ([10,15], [14,19], [20,23],
[22,25]). -/
theorem spawnScheduler_band (rng : Nat → Nat) (s : State)
    (halive : s.player.dead = false) (hgt : s.gameTime > s.interval) :
    ∃ inc sp : Nat,
      (spawnScheduler rng s).interval = s.interval + (inc : ℚ) ∧
      (spawnScheduler rng s).obstacle.position = ⟨800, 350⟩ ∧
      (spawnScheduler rng s).obstacle.velocity = ⟨-(sp : ℚ), 0⟩ ∧
      (s.gameTime ≤ 25 → 3 ≤ inc ∧ inc ≤ 5 ∧ 10 ≤ sp ∧ sp ≤ 15) ∧
      (25 < s.gameTime ∧ s.gameTime ≤ 50 → 2 ≤ inc ∧ inc ≤ 3 ∧ 14 ≤ sp ∧ sp ≤ 19) ∧
      (50 < s.gameTime ∧ s.gameTime ≤ 75 → 2 ≤ inc ∧ inc ≤ 5 ∧ 20 ≤ sp ∧ sp ≤ 23) ∧
      (75 < s.gameTime → 3 ≤ inc ∧ inc ≤ 4 ∧ 22 ≤ sp ∧ sp ≤ 25) := by
  rcases scheduler_trace_fire rng s halive hgt with
    ⟨h25, -, -, -, -, -, -, -, e⟩ | ⟨h25, h50, -, -, -, -, -, -, -, e⟩ |
    ⟨h50, h75, -, -, -, -, -, -, -, e⟩ | ⟨h75, -, -, -, -, -, -, -, e⟩
  · refine ⟨rng s.randCalls % 3 + 3, rng (s.randCalls + 1) % 6 + 10, by rw [e]; rfl,
      by rw [e]; rfl, by rw [e]; rfl, fun _ => by omega, fun h => ?_, fun h => ?_, fun h => ?_⟩
    · linarith [h.1]
    · linarith [h.1]
    · linarith
  · refine ⟨rng s.randCalls % 2 + 2, rng (s.randCalls + 1) % 6 + 14, by rw [e]; rfl,
      by rw [e]; rfl, by rw [e]; rfl, fun h => ?_, fun _ => by omega, fun h => ?_, fun h => ?_⟩
    · linarith
    · linarith [h.1]
    · linarith
  · refine ⟨rng s.randCalls % 4 + 2, rng (s.randCalls + 1) % 4 + 20, by rw [e]; rfl,
      by rw [e]; rfl, by rw [e]; rfl, fun h => ?_, fun h => ?_, fun _ => by omega, fun h => ?_⟩
    · linarith
    · linarith [h.2]
    · linarith
  · refine ⟨rng s.randCalls % 2 + 3, rng (s.randCalls + 1) % 4 + 22, by rw [e]; rfl,
      by rw [e]; rfl, by rw [e]; rfl, fun h => ?_, fun h => ?_, fun h => ?_, fun _ => by omega⟩
    · linarith
    · linarith [h.2]
    · linarith [h.2]

theorem spawnScheduler_band_witness :
    sched10.gameTime = 10 ∧ sched10.interval = 3 ∧
    ∃ inc sp : Nat,
      (spawnScheduler rngZero sched10).interval = sched10.interval + (inc : ℚ) ∧
      (spawnScheduler rngZero sched10).obstacle.position = ⟨800, 350⟩ ∧
      (spawnScheduler rngZero sched10).obstacle.velocity = ⟨-(sp : ℚ), 0⟩ ∧
      (sched10.gameTime ≤ 25 → 3 ≤ inc ∧ inc ≤ 5 ∧ 10 ≤ sp ∧ sp ≤ 15) ∧
      (25 < sched10.gameTime ∧ sched10.gameTime ≤ 50 →
        2 ≤ inc ∧ inc ≤ 3 ∧ 14 ≤ sp ∧ sp ≤ 19) ∧
      (50 < sched10.gameTime ∧ sched10.gameTime ≤ 75 →
        2 ≤ inc ∧ inc ≤ 5 ∧ 20 ≤ sp ∧ sp ≤ 23) ∧
      (75 < sched10.gameTime → 3 ≤ inc ∧ inc ≤ 4 ∧ 22 ≤ sp ∧ sp ≤ 25) :=
  ⟨rfl, rfl, spawnScheduler_band rngZero sched10 rfl (by norm_num [sched10])⟩

/-- C3: at most one of the four spawn blocks runs in an iteration.  When the
scheduler is entered with the player alive and `gameTime > interval` exactly
one block runs: `interval` is incremented once and `rand()` is called twice,
for one band; otherwise no block runs and nothing changes.  A block that runs
leaves the conditions of all later blocks false. -/
theorem one_block_per_tick (rng : Nat → Nat) (s : State) :
    (blocksFired rng s = if s.player.dead = false ∧ s.gameTime > s.interval then 1 else 0) ∧
    (spawnScheduler rng s).randCalls = s.randCalls + 2 * blocksFired rng s ∧
    (blocksFired rng s = 0 → spawnScheduler rng s = s) ∧
    (blocksFired rng s = 1 →
      ∃ m1 c1 m2 c2 : Nat, spawnScheduler rng s = spawn rng m1 c1 m2 c2 s) ∧
    (guard1 s = true →
      guard2 (spawnBlock1 rng s) = false ∧
      guard3 (spawnBlock2 rng (spawnBlock1 rng s)) = false ∧
      guard4 (spawnBlock3 rng (spawnBlock2 rng (spawnBlock1 rng s))) = false) ∧
    (guard2 (spawnBlock1 rng s) = true →
      guard3 (spawnBlock2 rng (spawnBlock1 rng s)) = false ∧
      guard4 (spawnBlock3 rng (spawnBlock2 rng (spawnBlock1 rng s))) = false) ∧
    (guard3 (spawnBlock2 rng (spawnBlock1 rng s)) = true →
      guard4 (spawnBlock3 rng (spawnBlock2 rng (spawnBlock1 rng s))) = false) := by
  by_cases h : s.player.dead = false ∧ s.gameTime > s.interval
  · rw [if_pos h]
    rcases scheduler_trace_fire rng s h.1 h.2 with
      ⟨-, g1, -, g2, -, g3, -, g4, e⟩ | ⟨-, -, g1, -, g2, -, g3, -, g4, e⟩ |
      ⟨-, -, g1, -, g2, -, g3, -, g4, e⟩ | ⟨-, g1, -, g2, -, g3, -, g4, e⟩
    all_goals
      have hb : blocksFired rng s = 1 := by simp [blocksFired, g1, g2, g3, g4]
      refine ⟨hb, by rw [hb, e]; rfl, fun h0 => by omega, fun _ => ⟨_, _, _, _, e⟩, ?_, ?_, ?_⟩
      all_goals simp [g1, g2, g3, g4]
  · rw [if_neg h]
    obtain ⟨g1, -, g2, -, g3, -, g4, e⟩ := scheduler_trace_idle rng s h
    have hb : blocksFired rng s = 0 := by simp [blocksFired, g1, g2, g3, g4]
    refine ⟨hb, by rw [hb, e]; rfl, fun _ => e, fun h1 => by omega, ?_, ?_, ?_⟩
    all_goals simp [g1, g2, g3, g4]

/-! ## One iteration -/

theorem advanceClock_player (s : State) : (advanceClock s).player = s.player := by
  unfold advanceClock; split <;> rfl

theorem spawnBlock1_player (rng : Nat → Nat) (s : State) :
    (spawnBlock1 rng s).player = s.player := by
  unfold spawnBlock1; split <;> rfl

theorem spawnBlock2_player (rng : Nat → Nat) (s : State) :
    (spawnBlock2 rng s).player = s.player := by
  unfold spawnBlock2; split <;> rfl

theorem spawnBlock3_player (rng : Nat → Nat) (s : State) :
    (spawnBlock3 rng s).player = s.player := by
  unfold spawnBlock3; split <;> rfl

theorem spawnBlock4_player (rng : Nat → Nat) (s : State) :
    (spawnBlock4 rng s).player = s.player := by
  unfold spawnBlock4; split <;> rfl

theorem spawnScheduler_player (rng : Nat → Nat) (s : State) :
    (spawnScheduler rng s).player = s.player := by
  unfold spawnScheduler
  rw [spawnBlock4_player, spawnBlock3_player, spawnBlock2_player, spawnBlock1_player]

theorem advanceObstacle_player (s : State) : (advanceObstacle s).player = s.player := by
  unfold advanceObstacle; split <;> rfl

theorem beforeCollision_player (rng : Nat → Nat) (s : State) :
    (beforeCollision rng s).player = s.player := by
  unfold beforeCollision
  rw [advanceObstacle_player, spawnScheduler_player, advanceClock_player]

theorem deathTransition_position (s : State) :
    (deathTransition s).player.position = s.player.position := by
  unfold deathTransition; split <;> rfl

theorem deathTransition_velocity (s : State) :
    (deathTransition s).player.velocity = s.player.velocity := by
  unfold deathTransition; split <;> rfl

theorem preInput_position (rng : Nat → Nat) (s : State) :
    (preInput rng s).player.position = s.player.position := by
  unfold preInput
  rw [deathTransition_position, beforeCollision_player]

theorem preInput_velocity (rng : Nat → Nat) (s : State) :
    (preInput rng s).player.velocity = s.player.velocity := by
  unfold preInput
  rw [deathTransition_velocity, beforeCollision_player]

theorem jumpArcPlayer_eq (p : player) :
    jumpArcPlayer p =
      if p.position.y < 350 then
        if p.position.y + p.velocity.y > 350 then
          { position := ⟨p.position.x + p.velocity.x, 350⟩
            velocity := ⟨p.velocity.x + 0, p.velocity.y + 1⟩
            dead := p.dead }
        else
          { position := ⟨p.position.x + p.velocity.x, p.position.y + p.velocity.y⟩
            velocity := ⟨p.velocity.x + 0, p.velocity.y + 1⟩
            dead := p.dead }
      else p := rfl

theorem jumpArcPlayer_dead (p : player) : (jumpArcPlayer p).dead = p.dead := by
  rw [jumpArcPlayer_eq]
  split_ifs <;> rfl

theorem handleInput_false (s : State) : handleInput false s = s := by
  simp [handleInput]

theorem handleInput_dead (space : Bool) (s : State) (h : s.player.dead = true) :
    handleInput space s = s := by
  simp [handleInput, h]

theorem advanceClock_dead (s : State) (h : s.player.dead = true) : advanceClock s = s := by
  simp [advanceClock, h]

theorem advanceObstacle_dead (s : State) (h : s.player.dead = true) :
    advanceObstacle s = s := by
  simp [advanceObstacle, h]

theorem deathTransition_dead (s : State) (h : s.player.dead = true) :
    deathTransition s = s := by
  simp [deathTransition, h]

theorem spawnScheduler_dead (rng : Nat → Nat) (s : State) (h : s.player.dead = true) :
    spawnScheduler rng s = s :=
  (scheduler_trace_idle rng s (fun hc => by simp [h] at hc)).2.2.2.2.2.2.2

theorem preInput_dead (rng : Nat → Nat) (s : State) (h : s.player.dead = true) :
    preInput rng s = s := by
  unfold preInput beforeCollision
  rw [advanceClock_dead s h, spawnScheduler_dead rng s h, advanceObstacle_dead s h,
    deathTransition_dead s h]

/-- An iteration entered with the player dead only runs the jump-arc
statement of lines 206-212. -/
theorem tick_dead (rng : Nat → Nat) (space : Bool) (s : State) (h : s.player.dead = true) :
    tick rng space s = jumpArc s := by
  unfold tick
  rw [preInput_dead rng s h, handleInput_dead space s h]

theorem run_nil (rng : Nat → Nat) (s : State) : run rng s [] = s := rfl

theorem run_cons (rng : Nat → Nat) (s : State) (k : Bool) (keys : List Bool) :
    run rng s (k :: keys) = run rng (tick rng k s) keys := rfl

theorem run_append (rng : Nat → Nat) (s : State) (k1 k2 : List Bool) :
    run rng s (k1 ++ k2) = run rng (run rng s k1) k2 := by
  simp [run, List.foldl_append]

/-- An iteration entered with the player dead leaves everything but the
player kinematics unchanged. -/
theorem tick_dead_frozen (rng : Nat → Nat) (space : Bool) (s : State)
    (hdead : s.player.dead = true) :
    (tick rng space s).player.dead = true ∧
    (tick rng space s).obstacle.position = s.obstacle.position ∧
    (tick rng space s).obstacle.velocity = s.obstacle.velocity ∧
    (tick rng space s).gameTime = s.gameTime ∧
    (tick rng space s).interval = s.interval ∧
    (tick rng space s).randCalls = s.randCalls := by
  rw [tick_dead rng space s hdead]
  refine ⟨?_, rfl, rfl, rfl, rfl, rfl⟩
  show (jumpArcPlayer s.player).dead = true
  rw [jumpArcPlayer_dead, hdead]

theorem run_dead_frozen (rng : Nat → Nat) (keys : List Bool) (s : State)
    (hdead : s.player.dead = true) :
    (run rng s keys).player.dead = true ∧
    (run rng s keys).obstacle.position = s.obstacle.position ∧
    (run rng s keys).obstacle.velocity = s.obstacle.velocity ∧
    (run rng s keys).gameTime = s.gameTime ∧
    (run rng s keys).interval = s.interval ∧
    (run rng s keys).randCalls = s.randCalls := by
  induction keys generalizing s with
  | nil => exact ⟨hdead, rfl, rfl, rfl, rfl, rfl⟩
  | cons k ks ih =>
    obtain ⟨h1, h2, h3, h4, h5, h6⟩ := tick_dead_frozen rng k s hdead
    obtain ⟨i1, i2, i3, i4, i5, i6⟩ := ih (tick rng k s) h1
    rw [run_cons]
    exact ⟨i1, i2.trans h2, i3.trans h3, i4.trans h4, i5.trans h5, i6.trans h6⟩

/-- C4: death is irreversible and freezes the obstacle and the clock.  From a
state with `player.dead = true`, one iteration with any key state and any
random stream leaves `dead` true and leaves the obstacle (position and
velocity), `gameTime`, `interval` and the number of `rand()` calls unchanged;
so does every sequence of iterations. -/
theorem dead_freezes_world (rng : Nat → Nat) (s : State) (hdead : s.player.dead = true) :
    (∀ space : Bool,
      (tick rng space s).player.dead = true ∧
      (tick rng space s).obstacle.position = s.obstacle.position ∧
      (tick rng space s).obstacle.velocity = s.obstacle.velocity ∧
      (tick rng space s).gameTime = s.gameTime ∧
      (tick rng space s).interval = s.interval ∧
      (tick rng space s).randCalls = s.randCalls) ∧
    (∀ keys : List Bool,
      (run rng s keys).player.dead = true ∧
      (run rng s keys).obstacle.position = s.obstacle.position ∧
      (run rng s keys).obstacle.velocity = s.obstacle.velocity ∧
      (run rng s keys).gameTime = s.gameTime ∧
      (run rng s keys).interval = s.interval ∧
      (run rng s keys).randCalls = s.randCalls) := by
  constructor
  · intro space
    exact tick_dead_frozen rng space s hdead
  · intro keys
    exact run_dead_frozen rng keys s hdead

/-! ## A concrete run -/

theorem run_checkpoint30 : run rngZero init800 (List.replicate 30 false) = checkpoint30 := by
  decide!

theorem run_checkpoint60 : run rngZero checkpoint30 (List.replicate 30 false) = checkpoint60 := by
  decide!

theorem run_checkpoint89 : run rngZero checkpoint60 (List.replicate 29 false) = checkpoint89 := by
  decide!

theorem run_89 : run rngZero init800 (List.replicate 89 false) = checkpoint89 := by
  have e : List.replicate 89 false
      = List.replicate 30 false ++ (List.replicate 30 false ++ List.replicate 29 false) := by
    decide
  rw [e, run_append, run_append, run_checkpoint30, run_checkpoint60, run_checkpoint89]

theorem run_beforeImpact : run rngZero init800 (List.replicate 91 false) = beforeImpact := by
  have e : List.replicate 91 false = List.replicate 89 false ++ [false, false] := by
    decide
  rw [e, run_append, run_89]
  decide!

theorem run_deadAirborne : run rngZero init800 keysLateJump = deadAirborne := by
  unfold keysLateJump
  rw [run_append, run_89]
  decide!

theorem reachable_beforeImpact : Reachable beforeImpact :=
  ⟨⟨800, 350⟩, rngZero, List.replicate 91 false, run_beforeImpact.symm⟩

theorem reachable_deadAirborne : Reachable deadAirborne :=
  ⟨⟨800, 350⟩, rngZero, keysLateJump, run_deadAirborne.symm⟩

theorem dead_freezes_world_witness :
    deadAirborne.player.dead = true ∧
    (∀ keys : List Bool,
      (run rngZero deadAirborne keys).player.dead = true ∧
      (run rngZero deadAirborne keys).obstacle.position = deadAirborne.obstacle.position ∧
      (run rngZero deadAirborne keys).obstacle.velocity = deadAirborne.obstacle.velocity ∧
      (run rngZero deadAirborne keys).gameTime = deadAirborne.gameTime ∧
      (run rngZero deadAirborne keys).interval = deadAirborne.interval ∧
      (run rngZero deadAirborne keys).randCalls = deadAirborne.randCalls) :=
  ⟨by decide!, (dead_freezes_world rngZero deadAirborne (by decide!)).2⟩

theorem preInput_dead_of_collision (rng : Nat → Nat) (s : State)
    (hcol : checkCollision (box (beforeCollision rng s).player.position)
      (box (beforeCollision rng s).obstacle.position) = true) :
    (preInput rng s).player.dead = true := by
  unfold preInput deathTransition
  rw [hcol]
  cases hd : (beforeCollision rng s).player.dead <;> simp [hd]

theorem tick_player (rng : Nat → Nat) (space : Bool) (s : State) :
    (tick rng space s).player = jumpArcPlayer (handleInput space (preInput rng s)).player := rfl

/-- C9: a fatal collision cannot be dodged by the jump key of the same
iteration.  From an alive state, if the collision test that follows the
obstacle advance is positive, the player is dead at the end of the iteration
whatever the key state, and the iteration with the key held ends in the same
state as the iteration without it. -/
theorem collision_not_dodged (rng : Nat → Nat) (s : State) (_halive : s.player.dead = false)
    (hcol : checkCollision (box (beforeCollision rng s).player.position)
      (box (beforeCollision rng s).obstacle.position) = true) :
    (∀ space : Bool, (tick rng space s).player.dead = true) ∧
    (tick rng true s).player.position = (tick rng false s).player.position ∧
    (tick rng true s).player.velocity = (tick rng false s).player.velocity ∧
    tick rng true s = tick rng false s := by
  have hd := preInput_dead_of_collision rng s hcol
  have he : ∀ space : Bool, tick rng space s = jumpArc (preInput rng s) := fun space => by
    unfold tick
    rw [handleInput_dead space _ hd]
  refine ⟨fun space => ?_, by rw [he true, he false], by rw [he true, he false],
    by rw [he true, he false]⟩
  rw [he space]
  show (jumpArcPlayer (preInput rng s).player).dead = true
  rw [jumpArcPlayer_dead, hd]

theorem collision_not_dodged_witness :
    Reachable beforeImpact ∧
    beforeImpact.player.dead = false ∧
    (beforeCollision rngZero beforeImpact).obstacle.position = ⟨170, 350⟩ ∧
    (tick rngZero true beforeImpact).player.dead = true ∧
    tick rngZero true beforeImpact = tick rngZero false beforeImpact :=
  ⟨reachable_beforeImpact, by decide!, by decide!,
    (collision_not_dodged rngZero beforeImpact (by decide!) (by decide!)).1 true,
    (collision_not_dodged rngZero beforeImpact (by decide!) (by decide!)).2.2.2⟩

/-! ## The player -/

/-- C5, as the code has it: once `player.dead` is true an iteration only
applies the jump-arc statement to the player, whatever the key state.  A dead
player on the ground line (`position.y >= 350`) keeps its position and
velocity; a player that died in the air (`position.y < 350`) still takes its
velocity, capped at the ground line, and gravity. -/
theorem dead_player_motion (rng : Nat → Nat) (space : Bool) (s : State)
    (hdead : s.player.dead = true) :
    (tick rng space s).player = jumpArcPlayer s.player ∧
    (s.player.position.y ≥ 350 →
      (tick rng space s).player.position = s.player.position ∧
      (tick rng space s).player.velocity = s.player.velocity) ∧
    (s.player.position.y < 350 →
      (tick rng space s).player.position
        = ⟨s.player.position.x + s.player.velocity.x,
            min (s.player.position.y + s.player.velocity.y) 350⟩ ∧
      (tick rng space s).player.velocity
        = ⟨s.player.velocity.x, s.player.velocity.y + 1⟩) := by
  have e : (tick rng space s).player = jumpArcPlayer s.player := by
    rw [tick_dead rng space s hdead]; rfl
  refine ⟨e, fun h => ?_, fun h => ?_⟩
  · rw [e, jumpArcPlayer_eq, if_neg (not_lt.mpr h)]
    exact ⟨rfl, rfl⟩
  · rw [e, jumpArcPlayer_eq, if_pos h]
    split_ifs with hc
    · refine ⟨?_, by simp⟩
      rw [min_eq_right (le_of_lt hc)]
    · refine ⟨?_, by simp⟩
      rw [min_eq_left (not_lt.mp hc)]

theorem dead_player_motion_witness :
    deadAirborne.player.dead = true ∧
    (tick rngZero true deadAirborne).player = jumpArcPlayer deadAirborne.player :=
  ⟨by decide!, (dead_player_motion rngZero true deadAirborne (by decide!)).1⟩

/-- C5, as stated, fails: `deadAirborne` is reached from the initial state by
93 iterations (jump key held in iteration 90 only), the player is dead in the
air at `(50, 267)` with velocity `(0, -18)`, and the next iteration moves it to
`(50, 249)` with velocity `(0, -17)`. -/
theorem dead_airborne_player_still_moves :
    Reachable deadAirborne ∧
    deadAirborne.player.dead = true ∧
    deadAirborne.player.position = ⟨50, 267⟩ ∧
    deadAirborne.player.velocity = ⟨0, -18⟩ ∧
    (tick rngZero false deadAirborne).player.position = ⟨50, 249⟩ ∧
    (tick rngZero false deadAirborne).player.velocity = ⟨0, -17⟩ ∧
    ¬ (∀ s : State, Reachable s → s.player.dead = true →
        ∀ (rng : Nat → Nat) (space : Bool),
          (tick rng space s).player.position = s.player.position ∧
          (tick rng space s).player.velocity = s.player.velocity) := by
  have hr : Reachable deadAirborne := reachable_deadAirborne
  have hd : deadAirborne.player.dead = true := by decide!
  have hp : deadAirborne.player.position = ⟨50, 267⟩ := by decide!
  have hp2 : (tick rngZero false deadAirborne).player.position = ⟨50, 249⟩ := by decide!
  refine ⟨hr, hd, hp, by decide!, hp2, by decide!, fun hall => ?_⟩
  have h := (hall deadAirborne hr hd rngZero false).1
  rw [hp, hp2] at h
  exact absurd h (by decide!)

theorem handleInput_y_le (space : Bool) (s : State) (h : s.player.position.y ≤ 350) :
    (handleInput space s).player.position.y ≤ 350 := by
  unfold handleInput
  split
  · show s.player.position.y - 1 ≤ 350
    linarith
  · exact h

theorem jumpArcPlayer_y_le (p : player) (h : p.position.y ≤ 350) :
    (jumpArcPlayer p).position.y ≤ 350 := by
  rw [jumpArcPlayer_eq]
  split_ifs with h1 h2
  · exact le_refl _
  · exact not_lt.mp h2
  · exact h

theorem tick_y_le (rng : Nat → Nat) (space : Bool) (s : State)
    (h : s.player.position.y ≤ 350) : (tick rng space s).player.position.y ≤ 350 := by
  rw [tick_player]
  apply jumpArcPlayer_y_le
  apply handleInput_y_le
  rw [preInput_position]
  exact h

theorem run_y_le (rng : Nat → Nat) (keys : List Bool) (s : State)
    (h : s.player.position.y ≤ 350) : (run rng s keys).player.position.y ≤ 350 := by
  induction keys generalizing s with
  | nil => exact h
  | cons k ks ih =>
    rw [run_cons]
    exact ih _ (tick_y_le rng k s h)

/-- C8: in every state reachable from the initial state, whatever the initial
obstacle position, the random stream and the key states, the player is not
below the ground line: `player.position.y <= 350`. -/
theorem player_never_below_ground (s : State) (h : Reachable s) :
    s.player.position.y ≤ 350 := by
  obtain ⟨obs, rng, keys, rfl⟩ := h
  apply run_y_le
  show (350 : ℚ) ≤ 350
  exact le_refl _

theorem player_never_below_ground_witness :
    Reachable deadAirborne ∧ deadAirborne.player.position.y ≤ 350 :=
  ⟨reachable_deadAirborne, player_never_below_ground deadAirborne reachable_deadAirborne⟩

/-! ## The jump -/

theorem handleInput_jump (s : State) (hy : s.player.position.y ≥ 350)
    (hd : s.player.dead = false) :
    (handleInput true s).player =
      { position := ⟨s.player.position.x, s.player.position.y - 1⟩
        velocity := ⟨s.player.velocity.x, -22⟩
        dead := false } := by
  simp [handleInput, hy, hd]

/-- The player after the jump statement and after the whole iteration, when a
jump is requested from `(50, 350)` at rest and the player survives the
collision test of that iteration. -/
theorem jump_iteration (rng : Nat → Nat) (s : State) (hp : s.player = groundedPlayer)
    (hsurv : (preInput rng s).player.dead = false) :
    (handleInput true (preInput rng s)).player
      = { position := ⟨50, 349⟩, velocity := ⟨0, -22⟩, dead := false } ∧
    (tick rng true s).player = airbornePlayer := by
  have e1 : (preInput rng s).player.position = ⟨50, 350⟩ := by
    rw [preInput_position, hp]; rfl
  have e2 : (preInput rng s).player.velocity = ⟨0, 0⟩ := by
    rw [preInput_velocity, hp]; rfl
  have e3 : (handleInput true (preInput rng s)).player
      = { position := ⟨50, 349⟩, velocity := ⟨0, -22⟩, dead := false } := by
    rw [handleInput_jump _ (by rw [e1]) hsurv, e1, e2]
    norm_num
  refine ⟨e3, ?_⟩
  rw [tick_player, e3]
  decide!

/-- C7, as the code has it: when a jump is requested from `(50, 350)` at
rest and the player survives the collision test of that iteration, the jump
statement sets `velocity.y = -22` and `position.y = 349`, and the jump-arc
statement of the same iteration then moves the player, so that the iteration
ends with `position.y = 327` and `velocity.y = -21`. -/
theorem jump_start (rng : Nat → Nat) (s : State) (hp : s.player = groundedPlayer)
    (hsurv : (preInput rng s).player.dead = false) :
    (handleInput true (preInput rng s)).player.velocity.y = -22 ∧
    (handleInput true (preInput rng s)).player.position.y = 349 ∧
    (tick rng true s).player.velocity.y = -21 ∧
    (tick rng true s).player.position.y = 327 := by
  obtain ⟨e1, e2⟩ := jump_iteration rng s hp hsurv
  rw [e1, e2]
  exact ⟨rfl, rfl, rfl, rfl⟩

theorem jump_start_witness :
    init800.player = groundedPlayer ∧ (preInput rngZero init800).player.dead = false ∧
    (handleInput true (preInput rngZero init800)).player.velocity.y = -22 ∧
    (handleInput true (preInput rngZero init800)).player.position.y = 349 ∧
    (tick rngZero true init800).player.velocity.y = -21 ∧
    (tick rngZero true init800).player.position.y = 327 :=
  ⟨rfl, by decide!, jump_start rngZero init800 rfl (by decide!)⟩

/-- C7, as stated, fails: the iteration in which the jump is requested from
the initial state ends with `velocity.y = -21`, not `-22`. -/
theorem jump_tick_ends_at_minus_21 :
    (tick rngZero true init800).player.velocity.y = -21 ∧
    (tick rngZero true init800).player.velocity.y ≠ -22 :=
  ⟨by decide!, by decide!⟩

theorem jumpArcPlayer_kinEq (p q : player) (h : kinEq p q) :
    kinEq (jumpArcPlayer p) (jumpArcPlayer q) := by
  obtain ⟨hp, hv⟩ := h
  rw [jumpArcPlayer_eq, jumpArcPlayer_eq, hp, hv]
  split_ifs
  · exact ⟨rfl, rfl⟩
  · exact ⟨rfl, rfl⟩
  · exact ⟨hp, hv⟩

theorem iterate_kinEq (n : Nat) (p q : player) (h : kinEq p q) :
    kinEq (jumpArcPlayer^[n] p) (jumpArcPlayer^[n] q) := by
  induction n generalizing p q with
  | zero => exact h
  | succ n ih =>
    rw [Function.iterate_succ_apply, Function.iterate_succ_apply]
    exact ih _ _ (jumpArcPlayer_kinEq p q h)

theorem tick_false_kinEq (rng : Nat → Nat) (s : State) :
    kinEq (tick rng false s).player (jumpArcPlayer s.player) := by
  rw [tick_player, handleInput_false]
  exact jumpArcPlayer_kinEq _ _ ⟨preInput_position rng s, preInput_velocity rng s⟩

/-- Without key input the position and velocity of the player follow the
jump-arc statement alone, whatever happens to the obstacle and to `dead`. -/
theorem run_false_kinEq (rng : Nat → Nat) (n : Nat) (s : State) :
    kinEq (run rng s (List.replicate n false)).player (jumpArcPlayer^[n] s.player) := by
  induction n generalizing s with
  | zero => exact ⟨rfl, rfl⟩
  | succ n ih =>
    rw [List.replicate_succ, run_cons, Function.iterate_succ_apply]
    obtain ⟨a1, a2⟩ := ih (tick rng false s)
    obtain ⟨b1, b2⟩ := iterate_kinEq n _ _ (tick_false_kinEq rng s)
    exact ⟨a1.trans b1, a2.trans b2⟩

theorem arc_airborne :
    ∀ k : Nat, k < 45 → (jumpArcPlayer^[k] airbornePlayer).position.y < 350 := by
  decide!

theorem arc_landed : jumpArcPlayer^[45] airbornePlayer = landedPlayer := by
  decide!

theorem arc_rest (m : Nat) : jumpArcPlayer^[m] landedPlayer = landedPlayer := by
  induction m with
  | zero => rfl
  | succ m ih =>
    rw [Function.iterate_succ_apply]
    have e : jumpArcPlayer landedPlayer = landedPlayer := by decide!
    rw [e, ih]

/-- The whole trajectory of a jump started from `(50, 350)` at rest: in the
air for the jump iteration and the next 44, on the ground line with velocity
`(0, 24)` from the 45th iteration after the jump on. -/
theorem jump_trajectory (rng : Nat → Nat) (s : State) (hp : s.player = groundedPlayer)
    (hsurv : (preInput rng s).player.dead = false) :
    (∀ k : Nat, k < 45 →
      (run rng s (true :: List.replicate k false)).player.position.y < 350) ∧
    (∀ k : Nat, 45 ≤ k →
      kinEq (run rng s (true :: List.replicate k false)).player landedPlayer) := by
  have h1 : (tick rng true s).player = airbornePlayer := (jump_iteration rng s hp hsurv).2
  have h2 : ∀ k : Nat, kinEq (run rng s (true :: List.replicate k false)).player
      (jumpArcPlayer^[k] airbornePlayer) := fun k => by
    rw [run_cons, ← h1]
    exact run_false_kinEq rng k (tick rng true s)
  refine ⟨fun k hk => ?_, fun k hk => ?_⟩
  · rw [(h2 k).1]
    exact arc_airborne k hk
  · obtain ⟨m, rfl⟩ := Nat.exists_eq_add_of_le hk
    have e : jumpArcPlayer^[45 + m] airbornePlayer = landedPlayer := by
      rw [Nat.add_comm, Function.iterate_add_apply, arc_landed, arc_rest]
    rw [← e]
    exact h2 (45 + m)

/-- C6, as the code has it: from the alive player at `(50, 350)` at rest, an
iteration with the jump key held that the player survives, followed by
iterations without key input, keeps the player strictly above the ground line
for 44 more iterations, puts it on `position.y = 350` exactly at the 45th, and
leaves it there; `position.y` is never greater than 350, and the velocity is
not reset on landing: `velocity.y = 24` from then on. -/
theorem jump_arc_lands (rng : Nat → Nat) (s : State) (hp : s.player = groundedPlayer)
    (hsurv : (preInput rng s).player.dead = false) :
    (∀ k : Nat, k < 45 →
      (run rng s (true :: List.replicate k false)).player.position.y < 350) ∧
    (∀ k : Nat, 45 ≤ k →
      (run rng s (true :: List.replicate k false)).player.position.y = 350 ∧
      (run rng s (true :: List.replicate k false)).player.velocity.y = 24) ∧
    (∀ k : Nat, (run rng s (true :: List.replicate k false)).player.position.y ≤ 350) := by
  obtain ⟨h1, h2⟩ := jump_trajectory rng s hp hsurv
  refine ⟨h1, fun k hk => ?_, fun k => ?_⟩
  · obtain ⟨e1, e2⟩ := h2 k hk
    rw [e1, e2]
    exact ⟨rfl, rfl⟩
  · rcases Nat.lt_or_ge k 45 with hk | hk
    · exact le_of_lt (h1 k hk)
    · rw [(h2 k hk).1]
      exact le_refl _

theorem jump_arc_lands_witness :
    init800.player = groundedPlayer ∧ (preInput rngZero init800).player.dead = false ∧
    (run rngZero init800 (true :: List.replicate 44 false)).player.position.y < 350 ∧
    (run rngZero init800 (true :: List.replicate 45 false)).player.position.y = 350 ∧
    (run rngZero init800 (true :: List.replicate 45 false)).player.velocity.y = 24 :=
  ⟨rfl, by decide!,
    (jump_arc_lands rngZero init800 rfl (by decide!)).1 44 (by decide),
    (jump_arc_lands rngZero init800 rfl (by decide!)).2.1 45 (le_refl 45)⟩

/-- C6, as stated, fails: after the jump from the initial state the player is
back on `position.y = 350` after 45 further iterations with
`velocity.y = 24`, and no number of iterations without input gives a state
with `position.y = 350` and `velocity.y = 0`. -/
theorem jump_leaves_residual_velocity :
    (run rngZero init800 (true :: List.replicate 45 false)).player.position.y = 350 ∧
    (run rngZero init800 (true :: List.replicate 45 false)).player.velocity.y = 24 ∧
    ¬ ∃ n : Nat,
      (run rngZero init800 (true :: List.replicate n false)).player.position.y = 350 ∧
      (run rngZero init800 (true :: List.replicate n false)).player.velocity.y = 0 := by
  obtain ⟨h1, h2⟩ := jump_trajectory rngZero init800 rfl (by decide!)
  obtain ⟨e1, e2⟩ := h2 45 (le_refl 45)
  refine ⟨by rw [e1]; rfl, by rw [e2]; rfl, ?_⟩
  rintro ⟨n, hy, hv⟩
  rcases Nat.lt_or_ge n 45 with hn | hn
  · exact absurd hy (ne_of_lt (h1 n hn))
  · rw [(h2 n hn).2] at hv
    exact absurd hv (by decide!)

/-! ## Rounding -/

theorem roundHalfEven_floor_le (m : ℚ) : ⌊m⌋ ≤ roundHalfEven m := by
  unfold roundHalfEven
  split_ifs <;> omega

theorem roundHalfEven_le_floor_succ (m : ℚ) : roundHalfEven m ≤ ⌊m⌋ + 1 := by
  unfold roundHalfEven
  split_ifs <;> omega

theorem le_roundHalfEven (m : ℚ) (k : Int) (h : (k : ℚ) ≤ m) : k ≤ roundHalfEven m :=
  le_trans (Int.le_floor.mpr h) (roundHalfEven_floor_le m)

theorem roundHalfEven_le (m : ℚ) (k : Int) (h : m ≤ (k : ℚ)) : roundHalfEven m ≤ k := by
  rcases eq_or_lt_of_le h with he | hl
  · subst he
    unfold roundHalfEven
    simp
  · have : ⌊m⌋ < k := Int.floor_lt.mpr hl
    have := roundHalfEven_le_floor_succ m
    omega

theorem roundHalfEven_intCast (k : Int) : roundHalfEven (k : ℚ) = k :=
  le_antisymm (roundHalfEven_le _ k (le_refl _)) (le_roundHalfEven _ k (le_refl _))

/-- The first iteration takes the clock from 0 to the `float` nearest `dt`. -/
theorem clockStep_zero : clockStep 0 = 8947849 / 268435456 := by
  decide!

/-- At `gameTime = 2^19` the clock advances by 1/16 in an iteration, and at
`2^20` it no longer advances. -/
theorem clockStep_at_two_pow_19 : clockStep (2 ^ 19) = 2 ^ 19 + 1 / 16 := by
  decide!

theorem clockStep_at_two_pow_20 : clockStep (2 ^ 20) = 2 ^ 20 := by
  decide!

end SDLGame
